import Mathlib

/-!
Shallow embedding of `Mk2_fasterControl_Full/inject_sketch_name.py`, a
PlatformIO pre-build script that registers four preprocessor definitions
(PROJECT_PATH, CURRENT_TIME, BRANCH_NAME, COMMIT_HASH) on the build
environment.  Python strings are modelled as lists of characters; the
POSIX path helpers (`os.path.join`, `os.path.split`, `os.path.dirname`),
`str.strip`, and the fragment of `datetime` the script uses are embedded
faithfully; subprocess outcomes and the ambient build environment are
explicit inputs, and the script's observable actions are recorded as a
trace of effects.
-/

/-- A Python string, modelled as its list of characters. -/
abbrev PyStr := List Char

/-- The character list of a Lean string literal. -/
def str (s : String) : PyStr := s.data

/-- Whether a character is the POSIX path separator. -/
def isSlash (c : Char) : Bool := c == '/'

/-- Remove trailing path separators: `s.rstrip(sep)` as used by
`posixpath.split` / `posixpath.dirname`. -/
def rstripSlashes (l : PyStr) : PyStr := (l.reverse.dropWhile isSlash).reverse

/-- The part of the path after the last separator, i.e. `p[i:]` with
`i = p.rfind(sep) + 1` in `posixpath.split`. -/
def splitTail (l : PyStr) : PyStr := (l.reverse.takeWhile (fun c => !isSlash c)).reverse

/-- The part of the path up to and including the last separator, i.e.
`p[:i]` with `i = p.rfind(sep) + 1` in `posixpath.split`. -/
def splitHeadRaw (l : PyStr) : PyStr := (l.reverse.dropWhile (fun c => !isSlash c)).reverse

/-- The head component returned by `posixpath.split`: the raw head with
trailing separators removed unless it is empty or consists of separators
only (`if head and head != sep*len(head): head = head.rstrip(sep)`). -/
def pySplitHead (l : PyStr) : PyStr :=
  if splitHeadRaw l ≠ [] ∧ (splitHeadRaw l).any (fun c => !isSlash c) then
    rstripSlashes (splitHeadRaw l)
  else splitHeadRaw l

/-- `os.path.split` on POSIX. -/
def pySplit (l : PyStr) : PyStr × PyStr := (pySplitHead l, splitTail l)

/-- `os.path.dirname` on POSIX (equal to the first component of `split`). -/
def pyDirname (l : PyStr) : PyStr := pySplitHead l

/-- `os.path.join a b` on POSIX, for one extra component `b`:
if `b` is absolute it replaces `a`; otherwise `b` is appended, inserting a
separator unless `a` is empty or already ends with one. -/
def pyJoin (a b : PyStr) : PyStr :=
  if b.head? = some '/' then b
  else if a = [] ∨ a.getLast? = some '/' then a ++ b
  else a ++ '/' :: b

/-- Whitespace characters removed by Python `str.strip()` (the ASCII
whitespace subset, which covers everything git can emit here). -/
def isPySpace (c : Char) : Bool :=
  c == ' ' || c == '\t' || c == '\n' || c == '\r' || c == '\x0b' || c == '\x0c'

/-- Python `str.strip()`: remove leading and trailing whitespace. -/
def pyStrip (l : PyStr) : PyStr :=
  ((l.dropWhile isPySpace).reverse.dropWhile isPySpace).reverse

/-- Outcome of one `subprocess.check_output` call: captured stdout on a
zero exit status, `CalledProcessError` (carrying the return code) on a
non-zero exit status — with `shell=True` an unavailable `git` also
surfaces as a non-zero shell exit — or any other exception. -/
inductive SubprocessResult where
  | output (stdout : PyStr)
  | calledProcessError (returncode : Int)
  | otherError
deriving DecidableEq

/-- An error that escapes the script uncaught. -/
inductive ScriptError where
  | keyError
  | uncaughtException
deriving DecidableEq

/-- `get_git_revision_short_hash`: decode and strip the output of
`git rev-parse --short HEAD`; return `"N/A"` on `CalledProcessError`;
any other exception propagates. -/
def get_git_revision_short_hash : SubprocessResult → Except ScriptError PyStr
  | .output o => .ok (pyStrip o)
  | .calledProcessError _ => .ok (str "N/A")
  | .otherError => .error .uncaughtException

/-- `get_git_current_branch`: decode and strip the output of
`git branch --show-current`; return `"N/A"` on `CalledProcessError`;
any other exception propagates. -/
def get_git_current_branch : SubprocessResult → Except ScriptError PyStr
  | .output o => .ok (pyStrip o)
  | .calledProcessError _ => .ok (str "N/A")
  | .otherError => .error .uncaughtException

/-- A naive `datetime` (no timezone), as returned by `datetime.now()`. -/
structure NaiveDateTime where
  year : Nat
  month : Nat
  day : Nat
  hour : Nat
  minute : Nat
  second : Nat
  microsecond : Nat
deriving DecidableEq

/-- An aware `datetime`: a naive datetime plus a UTC offset in minutes. -/
structure AwareDateTime where
  naive : NaiveDateTime
  utcoffsetMinutes : Int
deriving DecidableEq

/-- `d.replace(microsecond=0)`. -/
def replaceMicrosecondZero (d : NaiveDateTime) : NaiveDateTime :=
  { d with microsecond := 0 }

/-- `d.astimezone()` applied to the naive datetime produced by
`datetime.now()`: the local UTC offset is attached and the wall-clock
fields are unchanged. -/
def astimezone (localOffsetMinutes : Int) (d : NaiveDateTime) : AwareDateTime :=
  ⟨d, localOffsetMinutes⟩

/-- A number rendered as two decimal digits, zero-padded. -/
def pad2 (n : Nat) : PyStr := [Nat.digitChar (n / 10), Nat.digitChar (n % 10)]

/-- A number rendered as four decimal digits, zero-padded. -/
def pad4 (n : Nat) : PyStr :=
  [Nat.digitChar (n / 1000), Nat.digitChar (n / 100 % 10),
   Nat.digitChar (n / 10 % 10), Nat.digitChar (n % 10)]

/-- A number rendered as six decimal digits, zero-padded. -/
def pad6 (n : Nat) : PyStr :=
  [Nat.digitChar (n / 100000), Nat.digitChar (n / 10000 % 10),
   Nat.digitChar (n / 1000 % 10), Nat.digitChar (n / 100 % 10),
   Nat.digitChar (n / 10 % 10), Nat.digitChar (n % 10)]

/-- The `±HH:MM` UTC-offset suffix `datetime.isoformat` prints for an
aware datetime whose offset is a whole number of minutes. -/
def utcoffsetStr (m : Int) : PyStr :=
  (if m < 0 then '-' else '+') :: (pad2 (m.natAbs / 60) ++ ':' :: pad2 (m.natAbs % 60))

/-- `d.isoformat(sep)` for an aware datetime: date, separator, time
(fractional seconds printed only when the microsecond field is nonzero),
then the UTC offset. -/
def isoformat (sep : Char) (d : AwareDateTime) : PyStr :=
  pad4 d.naive.year ++ '-' :: pad2 d.naive.month ++ '-' :: pad2 d.naive.day
    ++ sep :: pad2 d.naive.hour ++ ':' :: pad2 d.naive.minute ++ ':' :: pad2 d.naive.second
    ++ (if d.naive.microsecond = 0 then [] else '.' :: pad6 d.naive.microsecond)
    ++ utcoffsetStr d.utcoffsetMinutes

/-- Numeric value of a decimal digit character. -/
def digitVal (c : Char) : Nat := c.toNat - 48

/-- Parse two decimal digit characters. -/
def parse2 (a b : Char) : Option Nat :=
  if a.isDigit && b.isDigit then some (digitVal a * 10 + digitVal b) else none

/-- Parse four decimal digit characters. -/
def parse4 (a b c d : Char) : Option Nat :=
  if a.isDigit && b.isDigit && c.isDigit && d.isDigit then
    some (digitVal a * 1000 + digitVal b * 100 + digitVal c * 10 + digitVal d)
  else none

/-- Parse six decimal digit characters. -/
def parse6 (a b c d e f : Char) : Option Nat :=
  if a.isDigit && b.isDigit && c.isDigit && d.isDigit && e.isDigit && f.isDigit then
    some (digitVal a * 100000 + digitVal b * 10000 + digitVal c * 1000
      + digitVal d * 100 + digitVal e * 10 + digitVal f)
  else none

/-- Parse a `±HH:MM` UTC-offset suffix back to minutes. -/
def parseOffset : PyStr → Option Int
  | sgn :: h1 :: h2 :: ':' :: m1 :: m2 :: [] =>
    (parse2 h1 h2).bind fun hh =>
    (parse2 m1 m2).bind fun mm =>
      if sgn = '+' then some ((hh * 60 + mm : Nat) : Int)
      else if sgn = '-' then some (-((hh * 60 + mm : Nat) : Int))
      else none
  | _ => none

/-- Modelled from the spec: `datetime.fromisoformat`, restricted to the
shapes `isoformat` emits — `YYYY-MM-DD<sep>HH:MM:SS[.ffffff]±HH:MM`.
Used to state that the produced timestamp string parses back. -/
def fromisoformatModel (sep : Char) : PyStr → Option AwareDateTime
  | y1 :: y2 :: y3 :: y4 :: '-' :: mo1 :: mo2 :: '-' :: d1 :: d2 :: sp
      :: h1 :: h2 :: ':' :: mi1 :: mi2 :: ':' :: s1 :: s2 :: rest =>
    if sp = sep then
      (parse4 y1 y2 y3 y4).bind fun y =>
      (parse2 mo1 mo2).bind fun mo =>
      (parse2 d1 d2).bind fun dd =>
      (parse2 h1 h2).bind fun hh =>
      (parse2 mi1 mi2).bind fun mi =>
      (parse2 s1 s2).bind fun ss =>
      if rest.head? = some '.' then
        match rest with
        | _ :: u1 :: u2 :: u3 :: u4 :: u5 :: u6 :: rest2 =>
          (parse6 u1 u2 u3 u4 u5 u6).bind fun us =>
          (parseOffset rest2).map fun off => ⟨⟨y, mo, dd, hh, mi, ss, us⟩, off⟩
        | _ => none
      else
        (parseOffset rest).map fun off => ⟨⟨y, mo, dd, hh, mi, ss, 0⟩, off⟩
    else none
  | _ => none

/-- The ranges `datetime` guarantees for a real clock reading together
with the constraint Python places on timezone offsets (strictly less than
24 hours). -/
def ValidClock (c : NaiveDateTime) (offsetMinutes : Int) : Prop :=
  1 ≤ c.year ∧ c.year ≤ 9999 ∧ 1 ≤ c.month ∧ c.month ≤ 12 ∧
  1 ≤ c.day ∧ c.day ≤ 31 ∧ c.hour ≤ 23 ∧ c.minute ≤ 59 ∧
  c.second ≤ 59 ∧ c.microsecond ≤ 999999 ∧ offsetMinutes.natAbs < 1440

instance (c : NaiveDateTime) (m : Int) : Decidable (ValidClock c m) := by
  unfold ValidClock; infer_instance

/-- The build environment object injected by the build tool, modelled as
an association list of string keys to string values. -/
def Env := List (PyStr × PyStr)

/-- `env[k]` as an option: `none` models the `KeyError` case. -/
def envGet (env : Env) (k : PyStr) : Option PyStr :=
  (env.find? (fun kv => kv.1 == k)).map Prod.snd

/-- An observable action of the script on the outside world. -/
inductive Effect where
  | spawn (argv : List PyStr) (shell : Bool)
  | appendCppDefines (defines : List (PyStr × PyStr))
  | writeFile (path contents : PyStr)
  | readEnvVar (name : PyStr)
deriving DecidableEq

/-- Whether an effect is a subprocess spawn. -/
def Effect.isSpawn : Effect → Bool
  | .spawn _ _ => true
  | _ => false

/-- Whether an effect is an append to `CPPDEFINES`. -/
def Effect.isAppend : Effect → Bool
  | .appendCppDefines _ => true
  | _ => false

/-- The argv list passed to `check_output` for the short commit hash. -/
def gitRevParseCmd : List PyStr := [str "git", str "rev-parse", str "--short", str "HEAD"]

/-- The argv list passed to `check_output` for the current branch. -/
def gitBranchCmd : List PyStr := [str "git", str "branch", str "--show-current"]

/-- `f"\"{x}\""`: the value wrapped in literal double quotes. -/
def pyQuote (s : PyStr) : PyStr := '"' :: s ++ ['"']

/-- The unquoted project name:
`os.path.split(os.path.dirname(os.path.join(PROJECT_DIR, "dummy")))[1]`. -/
def derivedProjectName (projectDir : PyStr) : PyStr :=
  (pySplit (pyDirname (pyJoin projectDir (str "dummy")))).2

/-- `macro_value = f"\"{os.path.split(os.path.dirname(proj_path))[1]}\""`. -/
def macroValue (projectDir : PyStr) : PyStr := pyQuote (derivedProjectName projectDir)

/-- `tz_dt = datetime.now().replace(microsecond=0).astimezone().isoformat(' ')`. -/
def buildTimestamp (clock : NaiveDateTime) (localOffsetMinutes : Int) : PyStr :=
  isoformat ' ' (astimezone localOffsetMinutes (replaceMicrosecondZero clock))

/-- Result of one run of the script: the effect trace it produced and the
uncaught exception it ended with, if any. -/
structure RunResult where
  effects : List Effect
  error : Option ScriptError
deriving DecidableEq

/-- One run of `inject_sketch_name.py`.  Inputs: the injected build
environment, one clock reading (`datetime.now()` is called once), the
local UTC offset, and the outcomes of the two git subprocesses.  The
script reads `env["PROJECT_DIR"]` (a missing key propagates as an
uncaught `KeyError` before anything else happens), computes `macro_value`
and `tz_dt`, then evaluates the `env.Append(CPPDEFINES=[...])` argument —
spawning the branch query and then the hash query — and performs the
single append. -/
def runScript (env : Env) (clock : NaiveDateTime) (localOffsetMinutes : Int)
    (branchRes hashRes : SubprocessResult) : RunResult :=
  match envGet env (str "PROJECT_DIR") with
  | none => { effects := [], error := some .keyError }
  | some projectDir =>
    match get_git_current_branch branchRes with
    | .error e => { effects := [.spawn gitBranchCmd true], error := some e }
    | .ok branch =>
      match get_git_revision_short_hash hashRes with
      | .error e =>
        { effects := [.spawn gitBranchCmd true, .spawn gitRevParseCmd true],
          error := some e }
      | .ok hash =>
        { effects := [.spawn gitBranchCmd true, .spawn gitRevParseCmd true,
            .appendCppDefines
              [(str "PROJECT_PATH", macroValue projectDir),
               (str "CURRENT_TIME", pyQuote (buildTimestamp clock localOffsetMinutes)),
               (str "BRANCH_NAME", pyQuote branch),
               (str "COMMIT_HASH", pyQuote hash)]],
          error := none }

/-- The defines list passed to the `CPPDEFINES` append of a run, if the
run performed one. -/
def appendedDefines (r : RunResult) : Option (List (PyStr × PyStr)) :=
  r.effects.findSome? fun e =>
    match e with
    | .appendCppDefines d => some d
    | _ => none

/-- The value registered for a given define name in a run, if any. -/
def registeredDefine (r : RunResult) (k : PyStr) : Option PyStr :=
  (appendedDefines r).bind fun d => (d.find? (fun kv => kv.1 == k)).map Prod.snd

/-- Modelled from the spec: the final path segment of a path, i.e. the
part after the last separator once trailing separators are removed. -/
def finalPathSegment (p : PyStr) : PyStr := (pySplit (rstripSlashes p)).2

/-- Modelled from the spec: the final path segment of the parent
directory of a path. -/
def parentFinalSegment (p : PyStr) : PyStr := finalPathSegment (pyDirname p)

/-- A quoted string literal: begins and ends with a double quote. -/
def isQuoted (s : PyStr) : Bool := s.head? == some '"' && s.getLast? == some '"'

lemma head?_dropWhile_eq {α : Type} (p : α → Bool) (l : List α) (c : α)
    (h : (l.dropWhile p).head? = some c) : p c = false := by
  have hm := List.head?_dropWhile_not p l
  rw [h] at hm
  exact hm

lemma getLast?_cons_of_ne_nil {α : Type} (a : α) (t : List α) (h : t ≠ []) :
    (a :: t).getLast? = t.getLast? := by
  cases t with
  | nil => exact absurd rfl h
  | cons b t' => exact List.getLast?_cons_cons

lemma getLast?_dropWhile_of_ne_nil {α : Type} (p : α → Bool) (l : List α)
    (h : l.dropWhile p ≠ []) : (l.dropWhile p).getLast? = l.getLast? := by
  induction l with
  | nil => simp at h
  | cons a t ih =>
    rw [List.dropWhile_cons] at h ⊢
    by_cases hpa : p a
    · simp only [hpa, if_true] at h ⊢
      have ht : t ≠ [] := by
        intro he
        rw [he] at h
        simp at h
      rw [ih h, getLast?_cons_of_ne_nil a t ht]
    · simp [hpa]

lemma pyStrip_head_not_space (o : PyStr) (c : Char)
    (h : (pyStrip o).head? = some c) : isPySpace c = false := by
  unfold pyStrip at h
  rw [List.head?_reverse] at h
  by_cases hB : (o.dropWhile isPySpace).reverse.dropWhile isPySpace = []
  · rw [hB] at h
    simp at h
  · rw [getLast?_dropWhile_of_ne_nil _ _ hB, List.getLast?_reverse] at h
    exact head?_dropWhile_eq _ _ _ h

lemma pyStrip_getLast_not_space (o : PyStr) (c : Char)
    (h : (pyStrip o).getLast? = some c) : isPySpace c = false := by
  unfold pyStrip at h
  rw [List.getLast?_reverse] at h
  exact head?_dropWhile_eq _ _ _ h

lemma isQuoted_pyQuote (s : PyStr) : isQuoted (pyQuote s) = true := by
  unfold isQuoted pyQuote
  rw [List.getLast?_concat]
  rfl

/-- C1: whenever a git query subprocess is unavailable or exits with a
non-zero status (which, through the shell invocation, surfaces as a
`CalledProcessError`), `get_git_current_branch` and
`get_git_revision_short_hash` return exactly the string `"N/A"` — a
non-empty string, with no propagated exception. -/
theorem C1_git_failure_yields_NA (rc1 rc2 : Int) :
    get_git_current_branch (.calledProcessError rc1) = .ok (str "N/A") ∧
    get_git_revision_short_hash (.calledProcessError rc2) = .ok (str "N/A") ∧
    str "N/A" ≠ str "" := by
  refine ⟨rfl, rfl, ?_⟩
  decide

/-- C1 witness: the two fallbacks at return code 128, evaluated. -/
theorem C1_git_failure_yields_NA_witness :
    get_git_current_branch (.calledProcessError 128) = .ok (str "N/A") ∧
    get_git_revision_short_hash (.calledProcessError 128) = .ok (str "N/A") ∧
    str "N/A" ≠ str "" :=
  C1_git_failure_yields_NA 128 128

/-- C2 counterexample: with the build project's directory path
(`env["PROJECT_DIR"]`) equal to `/home/u/proj/dummy`, a branch query
returning `main` and a hash query returning `abc1234`, the registered
`PROJECT_PATH` is `"dummy"` (quoted), not `"proj"` as the claim states. -/
theorem C2_counterexample :
    registeredDefine
      (runScript [(str "PROJECT_DIR", str "/home/u/proj/dummy")]
        ⟨2024, 1, 2, 3, 4, 5, 0⟩ 0
        (.output (str "main\n")) (.output (str "abc1234\n")))
      (str "PROJECT_PATH") = some (str "\"dummy\"") ∧
    some (str "\"dummy\"") ≠ some (str "\"proj\"") := by
  refine ⟨?_, ?_⟩ <;> decide

/-- C2 amended: when the script runs with the build project's directory
path equal to `/home/u/proj/dummy`, a branch query returning `main` and a
hash query returning `abc1234`, the registered definitions are
`PROJECT_PATH="dummy"`, `BRANCH_NAME="main"`, `COMMIT_HASH="abc1234"`
(the claimed `PROJECT_PATH="proj"` instead requires the directory path
`/home/u/proj`). -/
theorem C2_amended (clock : NaiveDateTime) (off : Int) :
    registeredDefine
      (runScript [(str "PROJECT_DIR", str "/home/u/proj/dummy")] clock off
        (.output (str "main\n")) (.output (str "abc1234\n")))
      (str "PROJECT_PATH") = some (str "\"dummy\"") ∧
    registeredDefine
      (runScript [(str "PROJECT_DIR", str "/home/u/proj/dummy")] clock off
        (.output (str "main\n")) (.output (str "abc1234\n")))
      (str "BRANCH_NAME") = some (str "\"main\"") ∧
    registeredDefine
      (runScript [(str "PROJECT_DIR", str "/home/u/proj/dummy")] clock off
        (.output (str "main\n")) (.output (str "abc1234\n")))
      (str "COMMIT_HASH") = some (str "\"abc1234\"") :=
  ⟨rfl, rfl, rfl⟩

/-- C4: every completed invocation registers exactly four definitions, in
order `PROJECT_PATH`, `CURRENT_TIME`, `BRANCH_NAME`, `COMMIT_HASH`, and
each value begins and ends with a double-quote character. -/
theorem C4_four_quoted_defines (pd : PyStr) (clock : NaiveDateTime) (off : Int)
    (b h : SubprocessResult) (hb : b ≠ SubprocessResult.otherError)
    (hh : h ≠ SubprocessResult.otherError) :
    ∃ v1 v2 v3 v4,
      appendedDefines (runScript [(str "PROJECT_DIR", pd)] clock off b h) =
        some [(str "PROJECT_PATH", v1), (str "CURRENT_TIME", v2),
              (str "BRANCH_NAME", v3), (str "COMMIT_HASH", v4)] ∧
      isQuoted v1 = true ∧ isQuoted v2 = true ∧
      isQuoted v3 = true ∧ isQuoted v4 = true := by
  rcases b with o1 | rc1 | _
  case otherError => exact absurd rfl hb
  all_goals rcases h with o2 | rc2 | _
  case otherError => exact absurd rfl hh
  case otherError => exact absurd rfl hh
  all_goals
    refine ⟨_, _, _, _, rfl, ?_, ?_, ?_, ?_⟩ <;> exact isQuoted_pyQuote _

/-- C4 witness: a concrete completed run registers the four quoted
definitions. -/
theorem C4_four_quoted_defines_witness :
    ∃ v1 v2 v3 v4,
      appendedDefines
        (runScript [(str "PROJECT_DIR", str "/home/u/proj")]
          ⟨2024, 1, 2, 3, 4, 5, 0⟩ 60
          (.output (str "main\n")) (.output (str "abc1234\n"))) =
        some [(str "PROJECT_PATH", v1), (str "CURRENT_TIME", v2),
              (str "BRANCH_NAME", v3), (str "COMMIT_HASH", v4)] ∧
      isQuoted v1 = true ∧ isQuoted v2 = true ∧
      isQuoted v3 = true ∧ isQuoted v4 = true :=
  C4_four_quoted_defines (str "/home/u/proj") ⟨2024, 1, 2, 3, 4, 5, 0⟩ 60
    (.output (str "main\n")) (.output (str "abc1234\n"))
    (by decide) (by decide)

/-- C5: when both git queries fail (outside any repository), the run
still completes, registering `BRANCH_NAME="N/A"` and `COMMIT_HASH="N/A"`
while `PROJECT_PATH` and `CURRENT_TIME` carry exactly the same values a
run with successful git queries registers from the same directory and
clock reading. -/
theorem C5_outside_git_repo (pd : PyStr) (clock : NaiveDateTime) (off : Int)
    (rc1 rc2 : Int) (o1 o2 : PyStr) :
    appendedDefines
      (runScript [(str "PROJECT_DIR", pd)] clock off
        (.calledProcessError rc1) (.calledProcessError rc2)) =
      some [(str "PROJECT_PATH", macroValue pd),
            (str "CURRENT_TIME", pyQuote (buildTimestamp clock off)),
            (str "BRANCH_NAME", pyQuote (str "N/A")),
            (str "COMMIT_HASH", pyQuote (str "N/A"))] ∧
    appendedDefines
      (runScript [(str "PROJECT_DIR", pd)] clock off
        (.output o1) (.output o2)) =
      some [(str "PROJECT_PATH", macroValue pd),
            (str "CURRENT_TIME", pyQuote (buildTimestamp clock off)),
            (str "BRANCH_NAME", pyQuote (pyStrip o1)),
            (str "COMMIT_HASH", pyQuote (pyStrip o2))] :=
  ⟨rfl, rfl⟩

/-- C7: a build environment without the `PROJECT_DIR` key makes the run
abort with an uncaught `KeyError` before any effect happens, so nothing
is registered; likewise a non-`CalledProcessError` subprocess exception
propagates uncaught and nothing is registered. -/
theorem C7_unhandled_failures (env : Env) (pd : PyStr) (clock : NaiveDateTime)
    (off : Int) (b h : SubprocessResult)
    (hmiss : envGet env (str "PROJECT_DIR") = none) :
    (runScript env clock off b h).error = some ScriptError.keyError ∧
    (runScript env clock off b h).effects = [] ∧
    appendedDefines (runScript env clock off b h) = none ∧
    (runScript [(str "PROJECT_DIR", pd)] clock off .otherError h).error =
      some ScriptError.uncaughtException ∧
    appendedDefines (runScript [(str "PROJECT_DIR", pd)] clock off .otherError h) =
      none := by
  have hrun : runScript env clock off b h =
      { effects := [], error := some ScriptError.keyError } := by
    unfold runScript
    rw [hmiss]
  rw [hrun]
  exact ⟨rfl, rfl, rfl, rfl, rfl⟩

/-- C7 witness: the empty environment aborts a concrete run with
`KeyError` and registers nothing. -/
theorem C7_unhandled_failures_witness :
    (runScript [] ⟨2024, 1, 2, 3, 4, 5, 0⟩ 0
        (.output (str "main\n")) (.output (str "abc1234\n"))).error =
      some ScriptError.keyError ∧
    (runScript [] ⟨2024, 1, 2, 3, 4, 5, 0⟩ 0
        (.output (str "main\n")) (.output (str "abc1234\n"))).effects = [] ∧
    appendedDefines
      (runScript [] ⟨2024, 1, 2, 3, 4, 5, 0⟩ 0
        (.output (str "main\n")) (.output (str "abc1234\n"))) = none ∧
    (runScript [(str "PROJECT_DIR", str "/home/u/proj")] ⟨2024, 1, 2, 3, 4, 5, 0⟩ 0
        .otherError (.output (str "abc1234\n"))).error =
      some ScriptError.uncaughtException ∧
    appendedDefines
      (runScript [(str "PROJECT_DIR", str "/home/u/proj")] ⟨2024, 1, 2, 3, 4, 5, 0⟩ 0
        .otherError (.output (str "abc1234\n"))) = none :=
  C7_unhandled_failures [] (str "/home/u/proj") ⟨2024, 1, 2, 3, 4, 5, 0⟩ 0
    (.output (str "main\n")) (.output (str "abc1234\n")) rfl

/-- C8: on every run the effect trace holds at most two subprocess
spawns, at most one `CPPDEFINES` append, and no effect of any other kind
(no file writes, no direct environment-variable reads); and a run that
ends without an uncaught exception appended exactly the four named
definitions. -/
theorem C8_frame (env : Env) (clock : NaiveDateTime) (off : Int)
    (b h : SubprocessResult) :
    (runScript env clock off b h).effects.countP Effect.isSpawn ≤ 2 ∧
    (runScript env clock off b h).effects.countP Effect.isAppend ≤ 1 ∧
    (runScript env clock off b h).effects.countP
      (fun e => !(e.isSpawn || e.isAppend)) = 0 ∧
    ((runScript env clock off b h).error = none →
      (appendedDefines (runScript env clock off b h)).map
          (fun d => d.map Prod.fst) =
        some [str "PROJECT_PATH", str "CURRENT_TIME",
              str "BRANCH_NAME", str "COMMIT_HASH"]) := by
  rcases henv : envGet env (str "PROJECT_DIR") with _ | pd <;>
    rcases b with o1 | rc1 | _ <;> rcases h with o2 | rc2 | _ <;>
    simp only [runScript] <;> rw [henv] <;>
    refine ⟨Nat.le_of_ble_eq_true rfl, Nat.le_of_ble_eq_true rfl, rfl, ?_⟩ <;>
    intro h0 <;>
    first
      | rfl
      | exact Option.noConfusion h0

/-- C8 witness: the frame conditions and the four-name append of a
concrete completed run. -/
theorem C8_frame_witness :
    (runScript [(str "PROJECT_DIR", str "/home/u/proj")] ⟨2024, 1, 2, 3, 4, 5, 0⟩ 0
        (.output (str "main\n")) (.output (str "abc1234\n"))).effects.countP
      Effect.isSpawn ≤ 2 ∧
    (runScript [(str "PROJECT_DIR", str "/home/u/proj")] ⟨2024, 1, 2, 3, 4, 5, 0⟩ 0
        (.output (str "main\n")) (.output (str "abc1234\n"))).effects.countP
      Effect.isAppend ≤ 1 ∧
    (runScript [(str "PROJECT_DIR", str "/home/u/proj")] ⟨2024, 1, 2, 3, 4, 5, 0⟩ 0
        (.output (str "main\n")) (.output (str "abc1234\n"))).effects.countP
      (fun e => !(e.isSpawn || e.isAppend)) = 0 ∧
    (appendedDefines
        (runScript [(str "PROJECT_DIR", str "/home/u/proj")] ⟨2024, 1, 2, 3, 4, 5, 0⟩ 0
          (.output (str "main\n")) (.output (str "abc1234\n")))).map
        (fun d => d.map Prod.fst) =
      some [str "PROJECT_PATH", str "CURRENT_TIME",
            str "BRANCH_NAME", str "COMMIT_HASH"] := by
  have hc := C8_frame [(str "PROJECT_DIR", str "/home/u/proj")]
    ⟨2024, 1, 2, 3, 4, 5, 0⟩ 0 (.output (str "main\n")) (.output (str "abc1234\n"))
  exact ⟨hc.1, hc.2.1, hc.2.2.1, hc.2.2.2 rfl⟩

/-- C9: on a successful git query both helpers return the subprocess
output with leading and trailing whitespace stripped, so the returned
string never starts or ends with a whitespace character. -/
theorem C9_stripped_output (o : PyStr) (c c' : Char)
    (hhead : (pyStrip o).head? = some c)
    (hlast : (pyStrip o).getLast? = some c') :
    get_git_current_branch (.output o) = .ok (pyStrip o) ∧
    get_git_revision_short_hash (.output o) = .ok (pyStrip o) ∧
    isPySpace c = false ∧ isPySpace c' = false :=
  ⟨rfl, rfl, pyStrip_head_not_space o c hhead, pyStrip_getLast_not_space o c' hlast⟩

/-- C9 witness: the strip behaviour evaluated on the output
`" main \n"`. -/
theorem C9_stripped_output_witness :
    get_git_current_branch (.output (str " main \n")) =
      .ok (pyStrip (str " main \n")) ∧
    get_git_revision_short_hash (.output (str " main \n")) =
      .ok (pyStrip (str " main \n")) ∧
    isPySpace 'm' = false ∧ isPySpace 'n' = false :=
  C9_stripped_output (str " main \n") 'm' 'n' (by decide) (by decide)

/-- C10: the registered `PROJECT_PATH` value is a pure function of the
`PROJECT_DIR` string alone.  Every run whose two git queries produce any
mix of captured output and `CalledProcessError` — i.e. every run that
registers anything at all — registers exactly `macroValue pd`, whatever
the clock or the offset, so any two such runs from the same directory
register identical values; runs aborted by an uncaught subprocess
exception register no `PROJECT_PATH` at all. -/
theorem C10_project_path_pure (pd : PyStr) (clock : NaiveDateTime) (off : Int)
    (b h : SubprocessResult) (hb : b ≠ SubprocessResult.otherError)
    (hh : h ≠ SubprocessResult.otherError) :
    registeredDefine
      (runScript [(str "PROJECT_DIR", pd)] clock off b h)
      (str "PROJECT_PATH") = some (macroValue pd) ∧
    registeredDefine
      (runScript [(str "PROJECT_DIR", pd)] clock off b SubprocessResult.otherError)
      (str "PROJECT_PATH") = none ∧
    registeredDefine
      (runScript [(str "PROJECT_DIR", pd)] clock off SubprocessResult.otherError h)
      (str "PROJECT_PATH") = none := by
  rcases b with o1 | rc1 | _
  case otherError => exact absurd rfl hb
  all_goals rcases h with o2 | rc2 | _
  case otherError => exact absurd rfl hh
  case otherError => exact absurd rfl hh
  all_goals exact ⟨rfl, rfl, rfl⟩

/-- C10 witness: a mixed-outcome run — branch query succeeding, hash
query failing with `CalledProcessError` — registers the same
`PROJECT_PATH` value `macroValue pd`. -/
theorem C10_project_path_pure_witness :
    registeredDefine
      (runScript [(str "PROJECT_DIR", str "/home/u/proj")] ⟨2024, 1, 2, 3, 4, 5, 0⟩ 0
        (.output (str "main\n")) (.calledProcessError 128))
      (str "PROJECT_PATH") = some (macroValue (str "/home/u/proj")) ∧
    registeredDefine
      (runScript [(str "PROJECT_DIR", str "/home/u/proj")] ⟨2024, 1, 2, 3, 4, 5, 0⟩ 0
        (.output (str "main\n")) SubprocessResult.otherError)
      (str "PROJECT_PATH") = none ∧
    registeredDefine
      (runScript [(str "PROJECT_DIR", str "/home/u/proj")] ⟨2024, 1, 2, 3, 4, 5, 0⟩ 0
        SubprocessResult.otherError (.calledProcessError 128))
      (str "PROJECT_PATH") = none :=
  C10_project_path_pure (str "/home/u/proj") ⟨2024, 1, 2, 3, 4, 5, 0⟩ 0
    (.output (str "main\n")) (.calledProcessError 128) (by decide) (by decide)

lemma dropWhile_notSlash_dummyRev (x : PyStr) :
    List.dropWhile (fun c => !isSlash c) (str "ymmud" ++ x) =
      List.dropWhile (fun c => !isSlash c) x := rfl

lemma dropWhile_notSlash_slash (x : PyStr) :
    List.dropWhile (fun c => !isSlash c) ('/' :: x) = '/' :: x := rfl

lemma dropWhile_isSlash_slash (x : PyStr) :
    List.dropWhile isSlash ('/' :: x) = List.dropWhile isSlash x := rfl

lemma takeWhile_notSlash_slash (x : PyStr) :
    List.takeWhile (fun c => !isSlash c) ('/' :: x) = [] := rfl

lemma rstripSlashes_concat_slash (p : PyStr) :
    rstripSlashes (p ++ ['/']) = rstripSlashes p := by
  unfold rstripSlashes
  have h : (p ++ ['/']).reverse = '/' :: p.reverse := by simp
  rw [h, dropWhile_isSlash_slash]

lemma derivedProjectName_eq (p : PyStr) :
    derivedProjectName p = splitTail (rstripSlashes p) := by
  rcases hq : p.reverse with _ | ⟨c, q⟩
  · have hp : p = [] := List.reverse_eq_nil_iff.mp hq
    subst hp
    decide
  · have hp : p = q.reverse ++ [c] := by
      rw [← List.reverse_reverse p, hq, List.reverse_cons]
    by_cases hc : c = '/'
    · subst hc
      have hJ : pyJoin p (str "dummy") = p ++ str "dummy" := by
        unfold pyJoin
        rw [if_neg (by decide), if_pos]
        exact Or.inr (by rw [hp]; exact List.getLast?_concat _)
      have hrev : (p ++ str "dummy").reverse = str "ymmud" ++ ('/' :: q) := by
        rw [List.reverse_append, hq]
        rfl
      have hshr : splitHeadRaw (pyJoin p (str "dummy")) = p := by
        unfold splitHeadRaw
        rw [hJ, hrev, dropWhile_notSlash_dummyRev, dropWhile_notSlash_slash,
          ← hq, List.reverse_reverse]
      show splitTail (pySplitHead (pyJoin p (str "dummy"))) = splitTail (rstripSlashes p)
      simp only [pySplitHead]
      rw [hshr]
      by_cases ha : p.any (fun c => !isSlash c) = true
      · rw [if_pos ⟨by rw [hp]; simp, ha⟩]
      · rw [if_neg (fun hcon => ha hcon.2)]
        have hall : ∀ x ∈ p.reverse, isSlash x = true := by
          intro x hx
          have hxp : x ∈ p := List.mem_reverse.mp hx
          by_contra hns
          have hxf : isSlash x = false := eq_false_of_ne_true hns
          exact ha (List.any_eq_true.mpr ⟨x, hxp, by simp [hxf]⟩)
        have h1 : splitTail p = [] := by
          unfold splitTail
          rw [hq, takeWhile_notSlash_slash]
          rfl
        have h2 : rstripSlashes p = [] := by
          unfold rstripSlashes
          rw [List.dropWhile_eq_nil_iff.mpr hall]
          rfl
        rw [h1, h2]
        rfl
    · have hpe : p ≠ [] := by
        rw [hp]
        simp
      have hJ : pyJoin p (str "dummy") = p ++ '/' :: str "dummy" := by
        unfold pyJoin
        rw [if_neg (by decide), if_neg]
        rintro (h | h)
        · exact hpe h
        · rw [hp, List.getLast?_concat] at h
          exact hc (Option.some.inj h)
      have hrev : (p ++ '/' :: str "dummy").reverse = str "ymmud" ++ ('/' :: p.reverse) := by
        rw [List.reverse_append]
        rfl
      have hshr : splitHeadRaw (pyJoin p (str "dummy")) = p ++ ['/'] := by
        unfold splitHeadRaw
        rw [hJ, hrev, dropWhile_notSlash_dummyRev, dropWhile_notSlash_slash,
          List.reverse_cons, List.reverse_reverse]
      show splitTail (pySplitHead (pyJoin p (str "dummy"))) = splitTail (rstripSlashes p)
      simp only [pySplitHead]
      rw [hshr]
      rw [if_pos]
      · rw [rstripSlashes_concat_slash]
      · refine ⟨by simp, List.any_eq_true.mpr ⟨c, ?_, ?_⟩⟩
        · exact List.mem_append_left _ (by rw [hp]; exact List.mem_append_right _ (List.mem_singleton_self c))
        · have hcf : isSlash c = false := by
            unfold isSlash
            exact beq_eq_false_iff_ne.mpr hc
          simp [hcf]

/-- C3 counterexample: at the project directory `/home/u/proj` the
derived project name (the unquoted content of `PROJECT_PATH`) is `proj`,
the final path segment of `/home/u/proj` itself, whereas the final path
segment of its parent directory `/home/u` is `u`. -/
theorem C3_counterexample :
    derivedProjectName (str "/home/u/proj") = str "proj" ∧
    parentFinalSegment (str "/home/u/proj") = str "u" ∧
    str "proj" ≠ str "u" ∧
    registeredDefine
      (runScript [(str "PROJECT_DIR", str "/home/u/proj")] ⟨2024, 1, 2, 3, 4, 5, 0⟩ 0
        (.output (str "main\n")) (.output (str "abc1234\n")))
      (str "PROJECT_PATH") = some (pyQuote (str "proj")) := by
  refine ⟨?_, ?_, ?_, ?_⟩ <;> decide

/-- C3 amended: for any directory path P supplied as the project
directory, the derived project name (the unquoted content of the
`PROJECT_PATH` value) equals the final path segment of P itself — not of
the parent of P — and this holds regardless of trailing path separators
on P. -/
theorem C3_amended (p : PyStr) (clock : NaiveDateTime) (off : Int) (o1 o2 : PyStr) :
    derivedProjectName p = finalPathSegment p ∧
    derivedProjectName (p ++ ['/']) = derivedProjectName p ∧
    registeredDefine
      (runScript [(str "PROJECT_DIR", p)] clock off (.output o1) (.output o2))
      (str "PROJECT_PATH") = some (pyQuote (derivedProjectName p)) := by
  refine ⟨derivedProjectName_eq p, ?_, rfl⟩
  rw [derivedProjectName_eq (p ++ ['/']), derivedProjectName_eq p,
    rstripSlashes_concat_slash]

lemma digitChar_isDigit : ∀ d : Nat, d < 10 → (Nat.digitChar d).isDigit = true := by
  decide

lemma digitVal_digitChar : ∀ d : Nat, d < 10 → digitVal (Nat.digitChar d) = d := by
  decide

lemma parse2_pad (n : Nat) (h : n < 100) :
    parse2 (Nat.digitChar (n / 10)) (Nat.digitChar (n % 10)) = some n := by
  have h1 : n / 10 < 10 := by omega
  have h2 : n % 10 < 10 := by omega
  unfold parse2
  rw [digitChar_isDigit _ h1, digitChar_isDigit _ h2,
    digitVal_digitChar _ h1, digitVal_digitChar _ h2]
  simp only [Bool.and_self, if_true, Option.some.injEq]
  omega

lemma parse4_pad (n : Nat) (h : n < 10000) :
    parse4 (Nat.digitChar (n / 1000)) (Nat.digitChar (n / 100 % 10))
      (Nat.digitChar (n / 10 % 10)) (Nat.digitChar (n % 10)) = some n := by
  have h1 : n / 1000 < 10 := by omega
  have h2 : n / 100 % 10 < 10 := by omega
  have h3 : n / 10 % 10 < 10 := by omega
  have h4 : n % 10 < 10 := by omega
  unfold parse4
  rw [digitChar_isDigit _ h1, digitChar_isDigit _ h2, digitChar_isDigit _ h3,
    digitChar_isDigit _ h4, digitVal_digitChar _ h1, digitVal_digitChar _ h2,
    digitVal_digitChar _ h3, digitVal_digitChar _ h4]
  simp only [Bool.and_self, if_true, Option.some.injEq]
  omega

lemma utcoffsetStr_head_not_dot (m : Int) : ¬(utcoffsetStr m).head? = some '.' := by
  unfold utcoffsetStr
  rcases lt_or_le m 0 with h | h
  · rw [if_pos h]
    intro hc
    exact absurd (Option.some.inj hc) (by decide)
  · rw [if_neg (not_lt.mpr h)]
    intro hc
    exact absurd (Option.some.inj hc) (by decide)

lemma parseOffset_cons (sgn h1 h2 m1 m2 : Char) :
    parseOffset (sgn :: h1 :: h2 :: ':' :: m1 :: m2 :: []) =
      ((parse2 h1 h2).bind fun hh =>
       (parse2 m1 m2).bind fun mm =>
        if sgn = '+' then some ((hh * 60 + mm : Nat) : Int)
        else if sgn = '-' then some (-((hh * 60 + mm : Nat) : Int))
        else none) := rfl

lemma parseOffset_utcoffsetStr (m : Int) (hm : m.natAbs < 1440) :
    parseOffset (utcoffsetStr m) = some m := by
  have h60 : m.natAbs / 60 < 100 := by omega
  have h60b : m.natAbs % 60 < 100 := by omega
  rcases lt_or_le m 0 with hneg | hpos
  · have hu : utcoffsetStr m =
        '-' :: Nat.digitChar (m.natAbs / 60 / 10) :: Nat.digitChar (m.natAbs / 60 % 10)
          :: ':' :: Nat.digitChar (m.natAbs % 60 / 10) :: Nat.digitChar (m.natAbs % 60 % 10) :: [] := by
      simp [utcoffsetStr, pad2, hneg]
    rw [hu, parseOffset_cons, parse2_pad _ h60, parse2_pad _ h60b]
    obtain ⟨q, r, hqr, hr⟩ : ∃ q r, m.natAbs = 60 * q + r ∧ r < 60 :=
      ⟨m.natAbs / 60, m.natAbs % 60, by omega, by omega⟩
    have h1 : m.natAbs / 60 = q := by omega
    have h2 : m.natAbs % 60 = r := by omega
    rw [h1, h2]
    have hcast : ((60 * q + r : Nat) : Int) = -m := by
      rw [← hqr]
      exact Int.ofNat_natAbs_of_nonpos (le_of_lt hneg)
    simp only [Option.some_bind, if_true]
    rw [if_neg (by decide)]
    simp only [Option.some.injEq]
    omega
  · have hu : utcoffsetStr m =
        '+' :: Nat.digitChar (m.natAbs / 60 / 10) :: Nat.digitChar (m.natAbs / 60 % 10)
          :: ':' :: Nat.digitChar (m.natAbs % 60 / 10) :: Nat.digitChar (m.natAbs % 60 % 10) :: [] := by
      simp [utcoffsetStr, pad2, not_lt.mpr hpos]
    rw [hu, parseOffset_cons, parse2_pad _ h60, parse2_pad _ h60b]
    obtain ⟨q, r, hqr, hr⟩ : ∃ q r, m.natAbs = 60 * q + r ∧ r < 60 :=
      ⟨m.natAbs / 60, m.natAbs % 60, by omega, by omega⟩
    have h1 : m.natAbs / 60 = q := by omega
    have h2 : m.natAbs % 60 = r := by omega
    rw [h1, h2]
    have hcast : ((60 * q + r : Nat) : Int) = m := by
      rw [← hqr]
      exact Int.natAbs_of_nonneg hpos
    simp only [Option.some_bind, if_true, Option.some.injEq]
    omega

lemma fromiso_isoformat (y mo dd hh mi ss : Nat) (off : Int)
    (hy : y ≤ 9999) (hmo : mo ≤ 99) (hdd : dd ≤ 99) (hhh : hh ≤ 99)
    (hmi : mi ≤ 99) (hss : ss ≤ 99) (hoff : off.natAbs < 1440) :
    fromisoformatModel ' ' (isoformat ' ' ⟨⟨y, mo, dd, hh, mi, ss, 0⟩, off⟩) =
      some ⟨⟨y, mo, dd, hh, mi, ss, 0⟩, off⟩ := by
  have hnorm : isoformat ' ' ⟨⟨y, mo, dd, hh, mi, ss, 0⟩, off⟩ =
      Nat.digitChar (y / 1000) :: Nat.digitChar (y / 100 % 10)
        :: Nat.digitChar (y / 10 % 10) :: Nat.digitChar (y % 10)
        :: '-' :: Nat.digitChar (mo / 10) :: Nat.digitChar (mo % 10)
        :: '-' :: Nat.digitChar (dd / 10) :: Nat.digitChar (dd % 10)
        :: ' ' :: Nat.digitChar (hh / 10) :: Nat.digitChar (hh % 10)
        :: ':' :: Nat.digitChar (mi / 10) :: Nat.digitChar (mi % 10)
        :: ':' :: Nat.digitChar (ss / 10) :: Nat.digitChar (ss % 10)
        :: utcoffsetStr off := by
    simp [isoformat, pad4, pad2]
  rw [hnorm]
  simp only [fromisoformatModel, if_true]
  rw [parse4_pad y (by omega), parse2_pad mo (by omega), parse2_pad dd (by omega),
    parse2_pad hh (by omega), parse2_pad mi (by omega), parse2_pad ss (by omega)]
  simp only [Option.some_bind]
  rw [if_neg (utcoffsetStr_head_not_dot off)]
  rw [parseOffset_utcoffsetStr off hoff]
  rfl

/-- C6: the registered `CURRENT_TIME` is the quoted string obtained from
the single clock reading by truncating to whole seconds and formatting it
ISO-8601 with a space separator and the local UTC offset attached;
parsing the produced string back yields exactly the truncated invocation
moment, which agrees with the clock reading in every field except the
microsecond, which is zero. -/
theorem C6_timestamp (pd : PyStr) (clock : NaiveDateTime) (off : Int)
    (o1 o2 : PyStr) (hv : ValidClock clock off) :
    registeredDefine
      (runScript [(str "PROJECT_DIR", pd)] clock off (.output o1) (.output o2))
      (str "CURRENT_TIME") = some (pyQuote (buildTimestamp clock off)) ∧
    buildTimestamp clock off = isoformat ' ' ⟨replaceMicrosecondZero clock, off⟩ ∧
    fromisoformatModel ' ' (buildTimestamp clock off) =
      some ⟨replaceMicrosecondZero clock, off⟩ ∧
    replaceMicrosecondZero clock =
      ⟨clock.year, clock.month, clock.day, clock.hour,
       clock.minute, clock.second, 0⟩ := by
  obtain ⟨y, mo, dd, hh, mi, ss, us⟩ := clock
  simp only [ValidClock] at hv
  obtain ⟨h1, h2, h3, h4, h5, h6, h7, h8, h9, h10, h11⟩ := hv
  exact ⟨rfl, rfl,
    fromiso_isoformat y mo dd hh mi ss off (by omega) (by omega) (by omega)
      (by omega) (by omega) (by omega) h11, rfl⟩

/-- C6 witness: the timestamp behaviour evaluated at a concrete clock
reading and offset. -/
theorem C6_timestamp_witness :
    registeredDefine
      (runScript [(str "PROJECT_DIR", str "/home/u/proj")]
        ⟨2026, 10, 12, 14, 30, 5, 123456⟩ 120
        (.output (str "main\n")) (.output (str "abc1234\n")))
      (str "CURRENT_TIME") =
      some (pyQuote (buildTimestamp ⟨2026, 10, 12, 14, 30, 5, 123456⟩ 120)) ∧
    buildTimestamp ⟨2026, 10, 12, 14, 30, 5, 123456⟩ 120 =
      isoformat ' ' ⟨replaceMicrosecondZero ⟨2026, 10, 12, 14, 30, 5, 123456⟩, 120⟩ ∧
    fromisoformatModel ' ' (buildTimestamp ⟨2026, 10, 12, 14, 30, 5, 123456⟩ 120) =
      some ⟨replaceMicrosecondZero ⟨2026, 10, 12, 14, 30, 5, 123456⟩, 120⟩ ∧
    replaceMicrosecondZero ⟨2026, 10, 12, 14, 30, 5, 123456⟩ =
      ⟨2026, 10, 12, 14, 30, 5, 0⟩ :=
  C6_timestamp (str "/home/u/proj") ⟨2026, 10, 12, 14, 30, 5, 123456⟩ 120
    (str "main\n") (str "abc1234\n") (by decide)
